import Mathlib

/-!
Verification of the dental-ml-retraining repository.

This file gives a shallow embedding of the two halves of the repository:

* `auto_retrain_model.py` — the offline retraining pipeline (`main`,
  `save_model`, the source-selection policy, the minimum-sample gate and
  the `appointmentId` deduplication), and
* `ml_prediction_service.py` — the online prediction service
  (`encode_feature`, `get_time_period`, the degraded fallback table and the
  `predict` request handler).

External collaborators (the fitted regressor, Python's process-dependent
`hash`, ISO-date parsing, and the Firestore client) are modelled as
explicit function parameters; file contents are modelled as byte lists.
-/

namespace DentalML

/-! ### Python string primitives, embedded structurally over `List Char` -/

/-- Does `hay` start with `pat`?  (List-of-characters version of Python
string prefix testing, used to implement substring search.) -/
def chStartsWith : List Char → List Char → Bool
  | _, [] => true
  | [], _ :: _ => false
  | c :: cs, p :: ps => c == p && chStartsWith cs ps

/-- Does `pat` occur as a contiguous substring of the second argument?
Mirrors Python's `pat in s`. -/
def chContains (pat : List Char) : List Char → Bool
  | [] => chStartsWith [] pat
  | c :: t => chStartsWith (c :: t) pat || chContains pat t

/-- Python's `pat in s` on strings. -/
def containsSub (s pat : String) : Bool :=
  chContains pat.data s.data

/-- Python's `str.upper` (ASCII, which covers every value the service
handles). -/
def pyUpper (s : String) : String :=
  String.mk (s.data.map Char.toUpper)

/-- Python's `str.lower` (ASCII). -/
def pyLower (s : String) : String :=
  String.mk (s.data.map Char.toLower)

/-- Worker for `pySplitWs`: split at whitespace, dropping empty pieces,
accumulating the current (reversed) token in `cur`. -/
def wsSplitGo (cur : List Char) : List Char → List (List Char)
  | [] => if cur.isEmpty then [] else [cur.reverse]
  | c :: t =>
    if c.isWhitespace then
      if cur.isEmpty then wsSplitGo [] t else cur.reverse :: wsSplitGo [] t
    else wsSplitGo (c :: cur) t

/-- Python's `str.split()` with no argument: split on runs of whitespace,
discarding empty tokens. -/
def pySplitWs (s : String) : List String :=
  (wsSplitGo [] s.data).map String.mk

/-- Characters of `s` up to (excluding) the first `:`.  This is
`s.split(':')[0]` in Python. -/
def upToColon : List Char → List Char
  | [] => []
  | c :: t => if c == ':' then [] else c :: upToColon t

/-- Python's `s.split(':')[0]`. -/
def beforeColon (s : String) : String :=
  String.mk (upToColon s.data)

/-- Strip leading and trailing whitespace, as Python's `int` does before
parsing. -/
def pyStrip (cs : List Char) : List Char :=
  ((cs.dropWhile Char.isWhitespace).reverse.dropWhile Char.isWhitespace).reverse

/-- Numeric value of a list of decimal digit characters. -/
def digitsVal (cs : List Char) : Nat :=
  cs.foldl (fun acc c => 10 * acc + (c.toNat - 48)) 0

/-- Python's `int(s)`: strip whitespace, optional sign, then a nonempty
run of decimal digits; `none` models the `ValueError` that the service
catches. -/
def pyInt (s : String) : Option Int :=
  match pyStrip s.data with
  | [] => none
  | c :: rest =>
    let signed : Int × List Char :=
      if c = '-' then (-1, rest)
      else if c = '+' then (1, rest)
      else (1, c :: rest)
    if signed.2.isEmpty then none
    else if signed.2.all Char.isDigit then some (signed.1 * (digitsVal signed.2 : Int))
    else none

/-! ### `ml_prediction_service.get_time_period` -/

/-- The hour-to-period bucketing at the end of `get_time_period`:
`[5,12)` is Morning, `[12,17)` is Afternoon, anything else Evening. -/
def bucketHour (hour : Int) : String :=
  if 5 ≤ hour ∧ hour < 12 then "Morning"
  else if 12 ≤ hour ∧ hour < 17 then "Afternoon"
  else "Evening"

/-- `get_time_period` from `ml_prediction_service.py` (lines 76–98).
Any exception inside the Python `try` block (only `int` can raise here)
yields the default `"Afternoon"`. -/
def get_time_period (time_str : String) : String :=
  let upper := pyUpper time_str
  if containsSub upper "AM" ∨ containsSub upper "PM" then
    match pySplitWs time_str with
    | [] => "Afternoon"
    | time_part :: rest =>
      let period := match rest with
        | p :: _ => pyUpper p
        | [] => "AM"
      match pyInt (beforeColon time_part) with
      | none => "Afternoon"
      | some hour =>
        let hour24 :=
          if period = "PM" ∧ hour ≠ 12 then hour + 12
          else if period = "AM" ∧ hour = 12 then 0
          else hour
        bucketHour hour24
  else
    match pyInt (beforeColon time_str) with
    | none => "Afternoon"
    | some hour => bucketHour hour

/-! ### `ml_prediction_service.encode_feature` -/

/-- The static `encoding_maps` literal inside `encode_feature`
(lines 56–69). -/
def static_encoding_maps : List (String × List (String × Int)) :=
  [("patient_type", [("Adult", 0), ("Child", 1), ("adult", 0), ("child", 1)]),
   ("day_of_week",
     [("Monday", 0), ("Tuesday", 1), ("Wednesday", 2), ("Thursday", 3),
      ("Friday", 4), ("Saturday", 5), ("Sunday", 6),
      ("monday", 0), ("tuesday", 1), ("wednesday", 2), ("thursday", 3),
      ("friday", 4), ("saturday", 5), ("sunday", 6)]),
   ("time_period",
     [("Morning", 0), ("Afternoon", 1), ("Evening", 2),
      ("morning", 0), ("afternoon", 1), ("evening", 2),
      ("AM", 0), ("PM", 1)])]

/-- `encoding_maps[feature_name].get(value, default)` with the code's
default of `0`, reached only when no trained encoder is registered under
`feature_name`. -/
def staticEncode (feature_name value : String) : Int :=
  match static_encoding_maps.lookup feature_name with
  | some m => (m.lookup value).getD 0
  | none => 0

/-- A loaded scikit-learn `LabelEncoder.transform` on one value: the index
of the value in the persisted `classes_`, `none` for the `ValueError` an
unseen label raises. -/
def leTransform (classes : List String) (value : String) : Option Int :=
  match classes with
  | [] => none
  | c :: t => if c = value then some 0 else (leTransform t value).map (fun i => i + 1)

/-- `encode_feature` (lines 47–74).  The loaded artifact's encoders are a
map from feature name to the encoder's class list.  When an encoder exists
for `feature_name`, an unseen value's `ValueError` is caught and the fixed
default `0` returned; the static maps are consulted only when no encoder
exists under that name. -/
def encode_feature (label_encoders : List (String × List String))
    (value feature_name : String) : Int :=
  match label_encoders.lookup feature_name with
  | some classes => (leTransform classes value).getD 0
  | none => staticEncode feature_name value

/-! ### Degraded-mode fallback table -/

/-- The `fallback_durations` dict (lines 147–154), in insertion order. -/
def fallback_durations : List (String × Nat) :=
  [("extraction", 25), ("cleaning", 35), ("filling", 30),
   ("root canal", 60), ("crown", 45), ("checkup", 20)]

/-- The degraded-mode lookup loop (lines 156–160): first key that is a
substring of the (already lowercased) procedure type wins, default 60. -/
def fallbackDuration (procedure_type : String) : Nat :=
  match fallback_durations.find? (fun kv => containsSub procedure_type kv.1) with
  | some kv => kv.2
  | none => 60

/-! ### Python-style rounding of the clamped prediction -/

/-- Round-half-to-even to the nearest integer, the rounding mode of
Python's built-in `round`. -/
def roundHalfEven (x : ℚ) : ℤ :=
  if x - x.floor < 1/2 then x.floor
  else if 1/2 < x - x.floor then x.floor + 1
  else if x.floor % 2 = 0 then x.floor else x.floor + 1

/-- Python's `round(q, 1)`. -/
def pyRound1 (q : ℚ) : ℚ :=
  ((roundHalfEven (10 * q) : ℤ) : ℚ) / 10

/-! ### The `/predict` handler -/

/-- The service's process-global state after `load_model`: whether a model
is loaded, and the artifact's `encoders` dict (feature name to the
encoder's class list). -/
structure ServiceState where
  modelLoaded : Bool
  label_encoders : List (String × List String)

/-- Opaque collaborators of the handler: Python's process-dependent string
`hash`, the fitted regressor's `predict`, and
`datetime.fromisoformat(...).strftime('%A')` (with `none` for a parse
exception). -/
structure PredictEnv where
  hashFn : String → Int
  modelFn : List Int → ℚ
  dayFn : String → Option String

/-- An HTTP response of the handler: status code plus the JSON fields that
may or may not be present in the body. -/
structure HttpResponse where
  status : Nat
  error : Option String
  predicted_duration_minutes : Option ℚ
  confidence : Option String
  model_used : Option Bool
  fallback : Option Bool
  features : Option (List (String × String))
deriving DecidableEq

/-- Day-of-week derivation in the loaded path (lines 170–176): `"Monday"`
unless a truthy `appointment_date` parses. -/
def dayOfWeekOf (env : PredictEnv) (data : List (String × String)) : String :=
  match data.lookup "appointment_date" with
  | none => "Monday"
  | some d => if d = "" then "Monday" else (env.dayFn d).getD "Monday"

/-- The four-entry feature vector built in the loaded path
(lines 182–196): hash-mod-1000 for the procedure, `encode_feature` for the
rest. -/
def featuresOf (st : ServiceState) (env : PredictEnv)
    (procedure_type patient_type day_of_week time_period : String) : List Int :=
  [env.hashFn procedure_type % 1000,
   encode_feature st.label_encoders patient_type "patient_type",
   encode_feature st.label_encoders day_of_week "day_of_week",
   encode_feature st.label_encoders time_period "time_period"]

/-- The `/predict` handler (lines 108–218) on a JSON object with string
values.  The handler never assigns the globals, so it returns the state it
was given alongside the response. -/
def predict (st : ServiceState) (env : PredictEnv)
    (data : List (String × String)) : ServiceState × HttpResponse :=
  if (data.lookup "procedure_type").isNone then
    (st, ⟨400, some "Missing required field: procedure_type",
          none, none, none, none, none⟩)
  else if (data.lookup "patient_type").isNone then
    (st, ⟨400, some "Missing required field: patient_type",
          none, none, none, none, none⟩)
  else
    let procedure_type := pyLower ((data.lookup "procedure_type").getD "")
    let patient_type := (data.lookup "patient_type").getD "Adult"
    let appointment_time := (data.lookup "appointment_time").getD "12:00 PM"
    if st.modelLoaded = false then
      (st, ⟨200, none, some ((fallbackDuration procedure_type : Nat) : ℚ),
            some "low", some false, some true, none⟩)
    else
      let day_of_week := dayOfWeekOf env data
      let time_period := get_time_period appointment_time
      let raw := env.modelFn
        (featuresOf st env procedure_type patient_type day_of_week time_period)
      let predicted_duration := max 10 (min 180 raw)
      (st, ⟨200, none, some (pyRound1 predicted_duration), some "high",
            some true, none,
            some [("procedure_type", procedure_type),
                  ("patient_type", patient_type),
                  ("day_of_week", day_of_week),
                  ("time_period", time_period)]⟩)

/-! ### Retraining pipeline (`auto_retrain_model.py`) -/

/-- One record of the training corpus, with the fields both loaders
(`export_training_data` and `load_csv_file`) produce. -/
structure TrainingRecord where
  appointmentId : String
  procedureType : String
  patientType : String
  dayOfWeek : String
  timePeriod : String
  actualDurationMinutes : ℚ
  isCustomProcedure : Bool
deriving DecidableEq

/-- `MIN_TRAINING_SAMPLES` (line 61). -/
def MIN_TRAINING_SAMPLES : Nat := 50

/-- The source-selection policy of `main` (lines 322–338): real Firebase
data if any exists, otherwise the bootstrap CSV corpus. -/
def selectTrainingData
    (real_training_data initial_training_data : List TrainingRecord) :
    List TrainingRecord :=
  if real_training_data.length > 0 then real_training_data
  else initial_training_data

/-- Worker for the dedup: keep a record iff its `appointmentId` was not
seen earlier. -/
def dedupGo (seen : List String) : List TrainingRecord → List TrainingRecord
  | [] => []
  | r :: rs =>
    if r.appointmentId ∈ seen then dedupGo seen rs
    else r :: dedupGo (r.appointmentId :: seen) rs

/-- `df.drop_duplicates(subset=['appointmentId'], keep='first')`
(line 360). -/
def dropDuplicatesByAppointmentId (l : List TrainingRecord) : List TrainingRecord :=
  dedupGo [] l

/-- The corpus a training round actually fits on: the selected source,
deduplicated by `appointmentId`. -/
def trainingCorpus (real boot : List TrainingRecord) : List TrainingRecord :=
  dropDuplicatesByAppointmentId (selectTrainingData real boot)

/-- The two artifact slots on disk: `smart_scheduler.pkl` and
`smart_scheduler_backup.pkl`, each either absent or holding some bytes. -/
structure FS where
  modelFile : Option (List Nat)
  backupFile : Option (List Nat)
deriving DecidableEq

/-- The `except` block of `save_model` (lines 264–271): if a backup file
exists, copy it over the model file; always report failure. -/
def restoreBackup (fs : FS) : Bool × FS :=
  match fs.backupFile with
  | some b => (false, ⟨some b, some b⟩)
  | none => (false, fs)

/-- `save_model` (lines 237–271) with explicit failure injection.
`backupCopyFails` makes the `shutil.copy` of the model into the backup
slot raise before writing its destination (e.g. the destination cannot be
opened); `writeFails` makes the serialization raise, leaving the model
file holding `corruptBytes` when that is `some` (the `wb` open truncated
and a partial write happened) and unchanged when it is `none` (the open
itself raised).  Returns the Python function's boolean result and the
resulting file system. -/
def save_model (fs : FS) (newBytes : List Nat)
    (backupCopyFails writeFails : Bool) (corruptBytes : Option (List Nat)) :
    Bool × FS :=
  if fs.modelFile.isSome ∧ backupCopyFails then
    restoreBackup fs
  else
    let fs1 : FS :=
      match fs.modelFile with
      | some b => ⟨some b, some b⟩
      | none => fs
    if writeFails then
      let damaged : Option (List Nat) :=
        match corruptBytes with
        | some p => some p
        | none => fs1.modelFile
      restoreBackup ⟨damaged, fs1.backupFile⟩
    else
      (true, ⟨some newBytes, fs1.backupFile⟩)

/-- Outcome of running the script: a process exit status, or an exception
that escapes `main` (the process then dies with a traceback and a
non-zero status). -/
inductive MainResult where
  | exitCode (code : Nat)
  | uncaughtError (pythonName : String)
deriving DecidableEq

/-- Opaque collaborators of `main`: the pickle serialization of the
trained artifact as a function of the corpus it was fitted on, and the
injected failure behaviour of `save_model`. -/
structure RunEnv where
  serialize : List TrainingRecord → List Nat
  backupCopyFails : Bool
  writeFails : Bool
  corruptBytes : Option (List Nat)

/-- The empty-train-set check of sklearn's `train_test_split` with
`test_size=0.2` (called by `train_model`, line 200): it computes
`n_test = ceil(0.2 * n)` and `n_train = n - n_test`, and raises
`ValueError` when the resulting train set would be empty.  `(n + 4) / 5`
is `ceil(0.2 * n)` in integer arithmetic, so the check fires exactly for
`n ≤ 1`. -/
def trainSetEmpty (n : Nat) : Bool :=
  n - (n + 4) / 5 == 0

/-- `main` (lines 303–396) and the `__main__` exit plumbing.
`firebaseStatus` is `initialize_firebase()`'s three-valued result;
`firebaseRecords` is what `export_training_data()` would yield.  Two
uncaught exceptions can escape `main`: `train_test_split` raises
`ValueError` when the deduplicated corpus leaves an empty train partition
(before `save_model` is reached, so the artifact is untouched); and after
a successful save the code evaluates `len(new_training_data)` although no
such name was ever bound, so whenever `firebase_status is True` that line
raises `NameError`.  (With at least one training row, fitting the forest
and computing MAE/R2 on a single-row partition emit at most warnings, not
exceptions, so the split is the trainer's only raising step.) -/
def mainRun (firebaseStatus : Option Bool)
    (firebaseRecords bootstrapRecords : List TrainingRecord)
    (env : RunEnv) (fs : FS) : MainResult × FS :=
  if firebaseStatus = some false then (.exitCode 1, fs)
  else
    let real_training_data :=
      if firebaseStatus = some true then firebaseRecords else []
    let all_training_data := selectTrainingData real_training_data bootstrapRecords
    if all_training_data.length < MIN_TRAINING_SAMPLES then (.exitCode 0, fs)
    else
      let df := dropDuplicatesByAppointmentId all_training_data
      if trainSetEmpty df.length then
        (.uncaughtError "ValueError: empty train set", fs)
      else
        let saved := save_model fs (env.serialize df)
          env.backupCopyFails env.writeFails env.corruptBytes
        if saved.1 then
          if firebaseStatus = some true then (.uncaughtError "new_training_data", saved.2)
          else (.exitCode 0, saved.2)
        else (.exitCode 1, saved.2)

/-- A sample record whose feature fields are fixed; records built from
distinct ids differ only in `appointmentId`. -/
def mkRecord (id : String) : TrainingRecord :=
  ⟨id, "cleaning", "Adult", "Monday", "Morning", 30, false⟩

/-- `n` records with pairwise distinct ids and identical feature
fields. -/
def distinctRecords (n : Nat) : List TrainingRecord :=
  (List.range n).map (fun i => mkRecord (toString i))

/-! ### Helper lemmas -/

theorem ratFloor_eq_intFloor (q : ℚ) : q.floor = ⌊q⌋ := rfl

theorem roundHalfEven_ge (x : ℚ) (n : ℤ) (h : (n : ℚ) ≤ x) :
    n ≤ roundHalfEven x := by
  have hf : n ≤ x.floor := by
    rw [ratFloor_eq_intFloor]; exact Int.le_floor.mpr h
  unfold roundHalfEven
  split_ifs <;> omega

theorem roundHalfEven_le (x : ℚ) (n : ℤ) (h : x ≤ (n : ℚ)) :
    roundHalfEven x ≤ n := by
  have hfl : ((x.floor : ℤ) : ℚ) ≤ x := by
    rw [ratFloor_eq_intFloor]; exact Int.floor_le x
  have hfn : x.floor ≤ n := by exact_mod_cast le_trans hfl h
  have hstep : (1 : ℚ)/2 ≤ x - x.floor → x.floor + 1 ≤ n := by
    intro hhalf
    have h1 : ((x.floor : ℤ) : ℚ) < (n : ℚ) := by linarith
    have h2 : x.floor < n := by exact_mod_cast h1
    omega
  unfold roundHalfEven
  split_ifs with h1 h2 h3
  · exact hfn
  · exact hstep (le_of_lt h2)
  · exact hfn
  · exact hstep (not_lt.mp h1)

theorem roundHalfEven_close (x : ℚ) :
    |((roundHalfEven x : ℤ) : ℚ) - x| ≤ 1/2 := by
  have hfl : ((x.floor : ℤ) : ℚ) ≤ x := by
    rw [ratFloor_eq_intFloor]; exact Int.floor_le x
  have hfu : x < ((x.floor : ℤ) : ℚ) + 1 := by
    rw [ratFloor_eq_intFloor]; exact Int.lt_floor_add_one x
  unfold roundHalfEven
  split_ifs with h1 h2 h3 <;> rw [abs_le] <;> constructor <;> push_cast <;> linarith

theorem pyRound1_close (q : ℚ) : |pyRound1 q - q| ≤ 1/20 := by
  have h := roundHalfEven_close (10 * q)
  rw [abs_le] at h ⊢
  have key : pyRound1 q - q = (((roundHalfEven (10 * q) : ℤ) : ℚ) - 10 * q) / 10 := by
    unfold pyRound1; ring
  rw [key]
  constructor
  · rw [le_div_iff₀ (by norm_num : (0:ℚ) < 10)]; linarith [h.1]
  · rw [div_le_iff₀ (by norm_num : (0:ℚ) < 10)]; linarith [h.2]

theorem pyRound1_clamped_bounds (q : ℚ) :
    10 ≤ pyRound1 (max 10 (min 180 q)) ∧ pyRound1 (max 10 (min 180 q)) ≤ 180 := by
  set c := max 10 (min 180 q) with hc
  have h1 : (10:ℚ) ≤ c := le_max_left _ _
  have h2 : c ≤ 180 := max_le (by norm_num) (min_le_left _ _)
  have hg : (100:ℤ) ≤ roundHalfEven (10 * c) :=
    roundHalfEven_ge _ _ (by push_cast; linarith)
  have hl : roundHalfEven (10 * c) ≤ (1800:ℤ) :=
    roundHalfEven_le _ _ (by push_cast; linarith)
  have hgq : (100:ℚ) ≤ ((roundHalfEven (10 * c) : ℤ) : ℚ) := by exact_mod_cast hg
  have hlq : ((roundHalfEven (10 * c) : ℤ) : ℚ) ≤ 1800 := by exact_mod_cast hl
  unfold pyRound1
  constructor
  · rw [le_div_iff₀ (by norm_num : (0:ℚ) < 10)]; linarith
  · rw [div_le_iff₀ (by norm_num : (0:ℚ) < 10)]; linarith

theorem roundHalfEven_intCast (n : ℤ) : roundHalfEven ((n : ℤ) : ℚ) = n := by
  have hfl : ((n : ℤ) : ℚ).floor = n := by
    rw [ratFloor_eq_intFloor]; exact Int.floor_intCast n
  unfold roundHalfEven
  rw [hfl]
  rw [sub_self]
  norm_num

theorem pyRound1_intCast (n : ℤ) : pyRound1 ((n : ℤ) : ℚ) = (n : ℚ) := by
  have h10 : (10:ℚ) * ((n : ℤ) : ℚ) = ((10 * n : ℤ) : ℚ) := by push_cast; ring
  unfold pyRound1
  rw [h10, roundHalfEven_intCast]
  push_cast
  rw [mul_comm, mul_div_assoc]
  norm_num

theorem pyRound1_ofNat (n : ℕ) : pyRound1 ((n : ℕ) : ℚ) = (n : ℚ) := by
  have h := pyRound1_intCast ((n : ℕ) : ℤ)
  push_cast at h
  exact h

theorem dedupGo_subset (l : List TrainingRecord) (seen : List String)
    (r : TrainingRecord) (hr : r ∈ dedupGo seen l) : r ∈ l := by
  induction l generalizing seen with
  | nil => simp [dedupGo] at hr
  | cons a t ih =>
    unfold dedupGo at hr
    by_cases h : a.appointmentId ∈ seen
    · rw [if_pos h] at hr
      exact List.mem_cons_of_mem _ (ih _ hr)
    · rw [if_neg h] at hr
      rcases List.mem_cons.mp hr with h1 | h1
      · exact h1 ▸ List.mem_cons_self _ _
      · exact List.mem_cons_of_mem _ (ih _ h1)

theorem dedupGo_filter (l : List TrainingRecord) (seen : List String) (id : String) :
    (dedupGo seen l).filter (fun r => r.appointmentId == id) =
      if id ∈ seen then []
      else (l.filter (fun r => r.appointmentId == id)).take 1 := by
  induction l generalizing seen with
  | nil => simp [dedupGo]
  | cons a t ih =>
    unfold dedupGo
    by_cases hmem : a.appointmentId ∈ seen
    · rw [if_pos hmem, ih]
      by_cases hid : id ∈ seen
      · simp [hid]
      · have hne : (a.appointmentId == id) = false := by
          simp only [beq_eq_false_iff_ne, ne_eq]
          rintro rfl; exact hid hmem
        simp [hid, List.filter_cons, hne]
    · rw [if_neg hmem]
      by_cases ha : a.appointmentId = id
      · subst ha
        rw [List.filter_cons_of_pos (by simp), ih]
        have hidmem : a.appointmentId ∈ a.appointmentId :: seen := List.mem_cons_self _ _
        rw [if_pos hidmem, if_neg hmem, List.filter_cons_of_pos (by simp)]
        simp
      · rw [List.filter_cons_of_neg (by simp [ha]), ih]
        by_cases hid : id ∈ seen
        · rw [if_pos (List.mem_cons.mpr (Or.inr hid)), if_pos hid]
        · rw [if_neg (by
            intro hc
            rcases List.mem_cons.mp hc with hc | hc
            · exact ha hc.symm
            · exact hid hc), if_neg hid,
            List.filter_cons_of_neg (by simp [ha])]

theorem leTransform_eq_none (classes : List String) (value : String)
    (h : value ∉ classes) : leTransform classes value = none := by
  induction classes with
  | nil => rfl
  | cons c t ih =>
    simp only [List.mem_cons, not_or] at h
    rw [leTransform, if_neg (fun hc => h.1 hc.symm), ih h.2]
    rfl

/-- The loaded-path behaviour of the handler, fully evaluated. -/
theorem predict_loaded (st : ServiceState) (env : PredictEnv)
    (data : List (String × String)) (pv qv : String)
    (hm : st.modelLoaded = true)
    (hp : data.lookup "procedure_type" = some pv)
    (hq : data.lookup "patient_type" = some qv) :
    predict st env data =
      (st, ⟨200, none,
        some (pyRound1 (max 10 (min 180 (env.modelFn (featuresOf st env (pyLower pv) qv
          (dayOfWeekOf env data)
          (get_time_period ((data.lookup "appointment_time").getD "12:00 PM"))))))),
        some "high", some true, none,
        some [("procedure_type", pyLower pv), ("patient_type", qv),
              ("day_of_week", dayOfWeekOf env data),
              ("time_period",
                get_time_period ((data.lookup "appointment_time").getD "12:00 PM"))]⟩) := by
  unfold predict
  rw [hp, hq]
  simp [hm]

/-- The degraded-path behaviour of the handler, fully evaluated. -/
theorem predict_degraded (st : ServiceState) (env : PredictEnv)
    (data : List (String × String)) (pv qv : String)
    (hm : st.modelLoaded = false)
    (hp : data.lookup "procedure_type" = some pv)
    (hq : data.lookup "patient_type" = some qv) :
    predict st env data =
      (st, ⟨200, none, some ((fallbackDuration (pyLower pv) : Nat) : ℚ),
            some "low", some false, some true, none⟩) := by
  unfold predict
  rw [hp, hq]
  simp [hm]

/-! ### Claim theorems -/

/-- Claim C1, counterexample.  The claim states that a failure during the
backup step aborts the publish with the current artifact untouched.  On
the concrete file system where the current artifact holds `[0]` and the
backup slot still holds `[1]` from an earlier run, a failing backup copy
does abort the publish, but the `except` handler then copies the stale
backup over the current artifact, so the current artifact is changed. -/
theorem C1_counterexample :
    ((⟨some [0], some [1]⟩ : FS).modelFile = some [0]) ∧
    (save_model ⟨some [0], some [1]⟩ [2] true false none).1 = false ∧
    (save_model ⟨some [0], some [1]⟩ [2] true false none).2.modelFile ≠ some [0] := by
  refine ⟨rfl, by decide, by decide⟩

/-- Claim C1, amended.  `save_model` first copies the current artifact, if
one exists, to the single backup slot.  A failure during that backup step
aborts the publish but also runs the best-effort restore, so the current
artifact is overwritten by whatever the backup slot already held and is
untouched only when the backup slot was empty.  A failure during the
subsequent serialization restores the freshly made backup over the
current-artifact location, leaving the pre-existing artifact unchanged.  A
successful publish installs the new bytes and leaves the backup slot
holding exactly the previous artifact's bytes. -/
theorem C1_publish_protocol (fs : FS) (newBytes : List Nat)
    (corruptBytes : Option (List Nat)) (prev : List Nat)
    (hprev : fs.modelFile = some prev) :
    ((save_model fs newBytes true false corruptBytes).1 = false ∧
     (save_model fs newBytes true false corruptBytes).2.backupFile = fs.backupFile ∧
     (save_model fs newBytes true false corruptBytes).2.modelFile =
       some (fs.backupFile.getD prev)) ∧
    ((save_model fs newBytes false true corruptBytes).1 = false ∧
     (save_model fs newBytes false true corruptBytes).2.modelFile = some prev ∧
     (save_model fs newBytes false true corruptBytes).2.backupFile = some prev) ∧
    ((save_model fs newBytes false false corruptBytes).1 = true ∧
     (save_model fs newBytes false false corruptBytes).2.modelFile = some newBytes ∧
     (save_model fs newBytes false false corruptBytes).2.backupFile = some prev) := by
  obtain ⟨mf, bf⟩ := fs
  simp only [FS.mk.injEq] at hprev ⊢
  subst hprev
  cases bf <;> cases corruptBytes <;>
    simp [save_model, restoreBackup]

/-- Claim C1, witness: a successful publish over a pre-existing artifact
`[7]` leaves the backup slot holding exactly `[7]`. -/
theorem C1_publish_protocol_witness :
    ((⟨some [7], some [3]⟩ : FS).modelFile = some [7]) ∧
    (save_model ⟨some [7], some [3]⟩ [9] false false none).2.backupFile = some [7] :=
  ⟨rfl, (C1_publish_protocol ⟨some [7], some [3]⟩ [9] none [7] rfl).2.2.2.2⟩

/-- Claim C2: if the observed (Firebase) corpus is non-empty, the round
selects exactly the observed corpus and the deduplicated corpus it trains
on contains only observed records; if the observed corpus is empty, it
selects exactly the bootstrap corpus and trains only on bootstrap
records. -/
theorem C2_source_selection (real boot : List TrainingRecord) :
    (real ≠ [] →
      selectTrainingData real boot = real ∧
      ∀ r ∈ trainingCorpus real boot, r ∈ real) ∧
    (real = [] →
      selectTrainingData real boot = boot ∧
      ∀ r ∈ trainingCorpus real boot, r ∈ boot) := by
  constructor
  · intro h
    have hsel : selectTrainingData real boot = real := by
      unfold selectTrainingData
      rw [if_pos (List.length_pos.mpr h)]
    refine ⟨hsel, fun r hr => ?_⟩
    rw [trainingCorpus, hsel] at hr
    exact dedupGo_subset _ _ _ hr
  · intro h
    subst h
    have hsel : selectTrainingData [] boot = boot := by
      unfold selectTrainingData
      simp
    refine ⟨hsel, fun r hr => ?_⟩
    rw [trainingCorpus, hsel] at hr
    exact dedupGo_subset _ _ _ hr

/-- Claim C2, witness: with a non-empty observed corpus the bootstrap list
is ignored, and with an empty observed corpus the bootstrap list is
used. -/
theorem C2_source_selection_witness :
    (([mkRecord "r"] : List TrainingRecord) ≠ [] ∧
     selectTrainingData [mkRecord "r"] [mkRecord "b"] = [mkRecord "r"]) ∧
    selectTrainingData [] [mkRecord "b"] = [mkRecord "b"] :=
  ⟨⟨by decide, ((C2_source_selection [mkRecord "r"] [mkRecord "b"]).1 (by decide)).1⟩,
   ((C2_source_selection [] [mkRecord "b"]).2 rfl).1⟩

/-- Claim C3, counterexample.  The claim states that a corpus whose size
after deduplication is below 50 skips training and leaves the artifact
byte-identical.  Fifty records spread over two distinct ids deduplicate to
two records (size 2 < 50), the train/test split succeeds on two rows, yet
the run does not skip: the minimum-sample gate in `main` is applied before
deduplication, so the run trains and publishes, the artifact bytes change
and the exit status is the success status. -/
theorem C3_counterexample :
    (dropDuplicatesByAppointmentId
      (List.replicate 25 (mkRecord "a") ++ List.replicate 25 (mkRecord "b"))).length = 2 ∧
    (mainRun none []
        (List.replicate 25 (mkRecord "a") ++ List.replicate 25 (mkRecord "b"))
        ⟨fun c => [c.length], false, false, none⟩ ⟨some [0], none⟩).2.modelFile ≠
      some [0] ∧
    (mainRun none []
        (List.replicate 25 (mkRecord "a") ++ List.replicate 25 (mkRecord "b"))
        ⟨fun c => [c.length], false, false, none⟩ ⟨some [0], none⟩).1 =
      .exitCode 0 := by
  refine ⟨by decide, by decide, by decide⟩

/-- Claim C3, amended.  The minimum-sample gate compares the size of the
selected corpus before deduplication with 50: a selected corpus of fewer
than 50 records exits 0 without touching the artifact; a selected corpus
of at least 50 records passes the gate and trains on the deduplicated
corpus even when deduplication brings it below 50, provided at least two
distinct records remain — in particular a deduplicated corpus of size
exactly 50 proceeds to train; when the deduplicated corpus has a single
record, the train/test split raises and the run dies before publishing,
with the artifact untouched. -/
theorem C3_threshold_gate (firebaseStatus : Option Bool)
    (real boot : List TrainingRecord) (env : RunEnv) (fs : FS)
    (hnf : firebaseStatus ≠ some false) :
    ((selectTrainingData (if firebaseStatus = some true then real else []) boot).length <
        MIN_TRAINING_SAMPLES →
      mainRun firebaseStatus real boot env fs = (.exitCode 0, fs)) ∧
    (MIN_TRAINING_SAMPLES ≤
        (selectTrainingData (if firebaseStatus = some true then real else []) boot).length →
      2 ≤ (dropDuplicatesByAppointmentId
        (selectTrainingData (if firebaseStatus = some true then real else []) boot)).length →
      env.backupCopyFails = false → env.writeFails = false →
      (mainRun firebaseStatus real boot env fs).2.modelFile =
        some (env.serialize (dropDuplicatesByAppointmentId
          (selectTrainingData (if firebaseStatus = some true then real else []) boot)))) ∧
    (MIN_TRAINING_SAMPLES ≤
        (selectTrainingData (if firebaseStatus = some true then real else []) boot).length →
      (dropDuplicatesByAppointmentId
        (selectTrainingData (if firebaseStatus = some true then real else []) boot)).length = 1 →
      mainRun firebaseStatus real boot env fs =
        (.uncaughtError "ValueError: empty train set", fs)) := by
  refine ⟨?_, ?_, ?_⟩
  · intro hlt
    unfold mainRun
    rw [if_neg hnf, if_pos hlt]
  · intro hge h2 hbf hwf
    have hts : trainSetEmpty (dropDuplicatesByAppointmentId
        (selectTrainingData (if firebaseStatus = some true then real else []) boot)).length =
        false := by
      simp only [trainSetEmpty, beq_eq_false_iff_ne, ne_eq]
      omega
    unfold mainRun
    rw [if_neg hnf]
    rw [if_neg (Nat.not_lt.mpr hge)]
    unfold save_model
    cases firebaseStatus with
    | none =>
      simp only [reduceCtorEq, if_false] at hts
      simp [hts, hbf, hwf]
    | some b =>
      cases b <;> simp only [Option.some.injEq] at hts <;> simp at hts <;>
        simp [hts, hbf, hwf]
  · intro hge h1
    have hts : trainSetEmpty (dropDuplicatesByAppointmentId
        (selectTrainingData (if firebaseStatus = some true then real else []) boot)).length =
        true := by
      rw [h1]
      decide
    unfold mainRun
    rw [if_neg hnf]
    rw [if_neg (Nat.not_lt.mpr hge)]
    simp [hts]

/-- Claim C3, witness: a 50-record selected corpus of distinct ids (so
the deduplicated corpus still has 50 records) proceeds to train and
publish the artifact serialized from the deduplicated corpus. -/
theorem C3_threshold_gate_witness :
    ((none : Option Bool) ≠ some false ∧
     MIN_TRAINING_SAMPLES ≤
       (selectTrainingData (if (none : Option Bool) = some true then
           ([] : List TrainingRecord) else []) (distinctRecords 50)).length ∧
     2 ≤ (dropDuplicatesByAppointmentId
       (selectTrainingData (if (none : Option Bool) = some true then
           ([] : List TrainingRecord) else []) (distinctRecords 50))).length) ∧
    (mainRun none [] (distinctRecords 50)
        ⟨fun _ => [7], false, false, none⟩ ⟨none, none⟩).2.modelFile = some [7] := by
  refine ⟨⟨by decide, by decide, by decide⟩, ?_⟩
  exact (C3_threshold_gate none [] (distinctRecords 50)
    ⟨fun _ => [7], false, false, none⟩ ⟨none, none⟩ (by decide)).2.1 (by decide) (by decide)
    rfl rfl

/-- Claim C4, counterexample.  The claim states that a value never seen
during fit is encoded through the fixed static categorical map for that
feature.  With a loaded encoder for `patient_type` whose classes are just
`["Adult"]`, the unseen value `"Child"` is encoded as the fixed default 0,
while the static map for `patient_type` maps `"Child"` to 1, so the code
does not fall back to the static map. -/
theorem C4_counterexample :
    ("Child" ∉ (["Adult"] : List String)) ∧
    (([("patient_type", ["Adult"])] : List (String × List String)).lookup
      "patient_type" = some ["Adult"]) ∧
    encode_feature [("patient_type", ["Adult"])] "Child" "patient_type" = 0 ∧
    staticEncode "patient_type" "Child" = 1 ∧
    encode_feature [("patient_type", ["Adult"])] "Child" "patient_type" ≠
      staticEncode "patient_type" "Child" := by
  refine ⟨by decide, by decide, by decide, by decide, by decide⟩

/-- Claim C4, amended.  At serving time, a feature value never seen during
fit is encoded as the fixed default 0 when an encoder is loaded under the
feature's serving-side name; the fixed static categorical map is consulted
only when no encoder is loaded under that name.  In either case the
unknown-category condition never reaches the caller: in the loaded state
the handler always answers with status 200, no error field, and
`model_used = true`. -/
theorem C4_unknown_category (encs : List (String × List String))
    (value fname : String) (classes : List String) :
    (encs.lookup fname = some classes → value ∉ classes →
      encode_feature encs value fname = 0) ∧
    (encs.lookup fname = none →
      encode_feature encs value fname = staticEncode fname value) ∧
    (∀ st : ServiceState, ∀ env : PredictEnv, ∀ data : List (String × String),
      st.modelLoaded = true →
      (data.lookup "procedure_type").isSome →
      (data.lookup "patient_type").isSome →
      (predict st env data).2.status = 200 ∧
      (predict st env data).2.error = none ∧
      (predict st env data).2.model_used = some true) := by
  refine ⟨?_, ?_, ?_⟩
  · intro hl hv
    simp [encode_feature, hl, leTransform_eq_none _ _ hv]
  · intro hl
    simp [encode_feature, hl]
  · intro st env data hm hp hq
    obtain ⟨pv, hpv⟩ := Option.isSome_iff_exists.mp hp
    obtain ⟨qv, hqv⟩ := Option.isSome_iff_exists.mp hq
    rw [predict_loaded st env data pv qv hm hpv hqv]
    exact ⟨rfl, rfl, rfl⟩

/-- Claim C4, witness: with an encoder loaded for `patient_type` fitted on
`["Adult"]` only, the unseen value `"Child"` is encoded as 0, and the
handler still answers 200 with the model used. -/
theorem C4_unknown_category_witness :
    (([("patient_type", ["Adult"])] : List (String × List String)).lookup
        "patient_type" = some ["Adult"] ∧
     "Child" ∉ (["Adult"] : List String) ∧
     (⟨true, [("patient_type", ["Adult"])]⟩ : ServiceState).modelLoaded = true ∧
     (([("procedure_type", "cleaning"), ("patient_type", "Child")] :
        List (String × String)).lookup "procedure_type").isSome = true) ∧
    encode_feature [("patient_type", ["Adult"])] "Child" "patient_type" = 0 ∧
    (predict ⟨true, [("patient_type", ["Adult"])]⟩ ⟨fun _ => 0, fun _ => 45, fun _ => none⟩
        [("procedure_type", "cleaning"), ("patient_type", "Child")]).2.status = 200 := by
  refine ⟨⟨by decide, by decide, rfl, by decide⟩, ?_, ?_⟩
  · exact (C4_unknown_category [("patient_type", ["Adult"])] "Child" "patient_type"
      ["Adult"]).1 (by decide) (by decide)
  · exact ((C4_unknown_category [("patient_type", ["Adult"])] "Child" "patient_type"
      ["Adult"]).2.2 ⟨true, [("patient_type", ["Adult"])]⟩
      ⟨fun _ => 0, fun _ => 45, fun _ => none⟩
      [("procedure_type", "cleaning"), ("patient_type", "Child")]
      rfl (by decide) (by decide)).1

/-- Claim C5: `get_time_period` parses `"H:MM AM/PM"` and 24-hour
`"HH:MM"`; with AM/PM markers it converts to a 24-hour hour (12 AM to 0,
12 PM stays 12, PM adds 12 to other hours); hours in `[5,12)` give
Morning, `[12,17)` Afternoon, anything else Evening; and any parse failure
gives Afternoon — including the five example inputs of the spec. -/
theorem C5_time_bucketing :
    (get_time_period "9:00 AM" = "Morning" ∧
     get_time_period "2:00 PM" = "Afternoon" ∧
     get_time_period "8:00 PM" = "Evening" ∧
     get_time_period "14:30" = "Afternoon" ∧
     get_time_period "" = "Afternoon" ∧
     get_time_period "half past nine" = "Afternoon" ∧
     get_time_period "noon PM" = "Afternoon") ∧
    (∀ h : Nat, h < 24 → get_time_period (toString h ++ ":00") =
      (if 5 ≤ h ∧ h < 12 then "Morning"
       else if 12 ≤ h ∧ h < 17 then "Afternoon" else "Evening")) ∧
    (∀ h : Nat, h < 13 → 1 ≤ h → get_time_period (toString h ++ ":30 AM") =
      (if 5 ≤ h ∧ h ≠ 12 then "Morning" else "Evening")) ∧
    (∀ h : Nat, h < 13 → 1 ≤ h → get_time_period (toString h ++ ":30 PM") =
      (if h < 5 ∨ h = 12 then "Afternoon" else "Evening")) := by
  refine ⟨by decide, by decide, by decide, by decide⟩

/-- Claim C5, witness: the 24-hour family at hour 14 gives Afternoon. -/
theorem C5_time_bucketing_witness :
    14 < 24 ∧ get_time_period (toString 14 ++ ":00") =
      (if 5 ≤ 14 ∧ 14 < 12 then "Morning"
       else if 12 ≤ 14 ∧ 14 < 17 then "Afternoon" else "Evening") :=
  ⟨by decide, C5_time_bucketing.2.1 14 (by decide)⟩

/-- Claim C6: deduplication keys on `appointmentId` and keeps the first
occurrence: for every corpus and every id, the deduplicated output
restricted to that id is exactly the first record of the corpus carrying
it; and two records with distinct ids both survive even when all their
feature fields coincide. -/
theorem C6_dedup_identity (l : List TrainingRecord) (id : String)
    (r1 r2 : TrainingRecord) :
    ((dropDuplicatesByAppointmentId l).filter (fun r => r.appointmentId == id) =
      (l.filter (fun r => r.appointmentId == id)).take 1) ∧
    (r1.appointmentId ≠ r2.appointmentId →
      dropDuplicatesByAppointmentId [r1, r2] = [r1, r2]) := by
  constructor
  · have h := dedupGo_filter l [] id
    simpa [dropDuplicatesByAppointmentId] using h
  · intro hne
    simp [dropDuplicatesByAppointmentId, dedupGo, Ne.symm hne]

/-- Claim C6, witness: two records identical except for their ids both
survive deduplication. -/
theorem C6_dedup_identity_witness :
    (mkRecord "a").appointmentId ≠ (mkRecord "b").appointmentId ∧
    dropDuplicatesByAppointmentId [mkRecord "a", mkRecord "b"] =
      [mkRecord "a", mkRecord "b"] :=
  ⟨by decide, (C6_dedup_identity [] "" (mkRecord "a") (mkRecord "b")).2 (by decide)⟩

/-- Claim C7, evaluated at the failing input and at the conforming legs,
all on corpora of 50 pairwise-distinct records (so the train/test split
succeeds and the runs reach the asserted lines).  The entry point exits 0
on an intentional skip and on a successful CSV-only run, and exits 1 on a
publish failure; but a successful run with Firebase configured does not
exit 0: after a successful save, `main` evaluates `len(new_training_data)`
although no such name is ever bound, so a `NameError` escapes and the
process dies with a non-zero status. -/
theorem C7_exit_status :
    (mainRun none [] [] ⟨fun _ => [7], false, false, none⟩ ⟨some [0], none⟩).1 =
      .exitCode 0 ∧
    (mainRun none [] (distinctRecords 50)
        ⟨fun _ => [7], false, false, none⟩ ⟨some [0], none⟩).1 = .exitCode 0 ∧
    (mainRun none [] (distinctRecords 50)
        ⟨fun _ => [7], false, true, none⟩ ⟨none, none⟩).1 = .exitCode 1 ∧
    (mainRun (some true) (distinctRecords 50) []
        ⟨fun _ => [7], false, false, none⟩ ⟨some [0], none⟩).1 =
      .uncaughtError "new_training_data" := by
  refine ⟨by decide, by decide, by decide, by decide⟩

/-- Claim C8: in the loaded state the raw model output is clamped to
`[10,180]` and rounded to one decimal before being returned; the returned
value always lies in `[10,180]`, differs from the clamped value by at most
`1/20` (one-decimal rounding), and the examples hold: raw 5 returns 10,
raw 300 returns 180, raw 45 passes through unchanged. -/
theorem C8_serving_clamp (st : ServiceState) (env : PredictEnv)
    (data : List (String × String)) (pv qv : String)
    (hm : st.modelLoaded = true)
    (hp : data.lookup "procedure_type" = some pv)
    (hq : data.lookup "patient_type" = some qv) :
    ((predict st env data).2.predicted_duration_minutes =
      some (pyRound1 (max 10 (min 180 (env.modelFn (featuresOf st env (pyLower pv) qv
        (dayOfWeekOf env data)
        (get_time_period ((data.lookup "appointment_time").getD "12:00 PM")))))))) ∧
    (∀ raw : ℚ, 10 ≤ pyRound1 (max 10 (min 180 raw)) ∧
      pyRound1 (max 10 (min 180 raw)) ≤ 180) ∧
    (∀ q : ℚ, |pyRound1 q - q| ≤ 1/20) ∧
    pyRound1 (max 10 (min 180 (5:ℚ))) = 10 ∧
    pyRound1 (max 10 (min 180 (300:ℚ))) = 180 ∧
    pyRound1 (max 10 (min 180 (45:ℚ))) = 45 := by
  refine ⟨?_, pyRound1_clamped_bounds, pyRound1_close, ?_, ?_, ?_⟩
  · rw [predict_loaded st env data pv qv hm hp hq]
  · have hc : max 10 (min 180 (5:ℚ)) = 10 := by
      rw [min_eq_right (by norm_num : (5:ℚ) ≤ 180),
        max_eq_left (by norm_num : (5:ℚ) ≤ 10)]
    rw [hc, show (10:ℚ) = ((10:ℕ):ℚ) by norm_num, pyRound1_ofNat]
  · have hc : max 10 (min 180 (300:ℚ)) = 180 := by
      rw [min_eq_left (by norm_num : (180:ℚ) ≤ 300),
        max_eq_right (by norm_num : (10:ℚ) ≤ 180)]
    rw [hc, show (180:ℚ) = ((180:ℕ):ℚ) by norm_num, pyRound1_ofNat]
  · have hc : max 10 (min 180 (45:ℚ)) = 45 := by
      rw [min_eq_right (by norm_num : (45:ℚ) ≤ 180),
        max_eq_right (by norm_num : (10:ℚ) ≤ 45)]
    rw [hc, show (45:ℚ) = ((45:ℕ):ℚ) by norm_num, pyRound1_ofNat]

/-- Claim C8, witness: with a model whose raw output is constantly 45, the
handler returns exactly 45. -/
theorem C8_serving_clamp_witness :
    ((⟨true, []⟩ : ServiceState).modelLoaded = true ∧
     (([("procedure_type", "cleaning"), ("patient_type", "Adult")] :
        List (String × String)).lookup "procedure_type" = some "cleaning")) ∧
    pyRound1 (max 10 (min 180 (45:ℚ))) = 45 :=
  ⟨⟨rfl, by decide⟩,
   (C8_serving_clamp ⟨true, []⟩ ⟨fun _ => 0, fun _ => 45, fun _ => none⟩
     [("procedure_type", "cleaning"), ("patient_type", "Adult")] "cleaning" "Adult"
     rfl (by decide) (by decide)).2.2.2.2.2⟩

/-- Claim C9: in the degraded state every request bypasses the model and
returns the lookup-table duration of the first keyword occurring in the
lowercased procedure type (60 when no keyword matches), with confidence
"low", `model_used = false` and `fallback = true`; in particular
"root canal" gives 60 and an unmatched procedure gives the default 60. -/
theorem C9_degraded_fallback (st : ServiceState) (env : PredictEnv)
    (data : List (String × String)) (pv qv : String)
    (hm : st.modelLoaded = false)
    (hp : data.lookup "procedure_type" = some pv)
    (hq : data.lookup "patient_type" = some qv) :
    ((predict st env data).2 =
      ⟨200, none, some ((fallbackDuration (pyLower pv) : Nat) : ℚ),
       some "low", some false, some true, none⟩) ∧
    (∀ p : String, (∀ kv ∈ fallback_durations, containsSub p kv.1 = false) →
      fallbackDuration p = 60) ∧
    (∀ p : String, fallbackDuration p = 60 ∨
      ∃ kv ∈ fallback_durations, containsSub p kv.1 = true ∧
        fallbackDuration p = kv.2) ∧
    fallbackDuration "root canal" = 60 ∧
    fallbackDuration (pyLower "ROOT CANAL") = 60 ∧
    fallbackDuration "laser zap" = 60 := by
  refine ⟨?_, ?_, ?_, by decide, by decide, by decide⟩
  · rw [predict_degraded st env data pv qv hm hp hq]
  · intro p hall
    have hnone : fallback_durations.find? (fun kv => containsSub p kv.1) = none :=
      List.find?_eq_none.mpr (fun kv hkv => by simp [hall kv hkv])
    unfold fallbackDuration
    rw [hnone]
  · intro p
    cases hfind : fallback_durations.find? (fun kv => containsSub p kv.1) with
    | none =>
      left
      unfold fallbackDuration
      rw [hfind]
    | some kv =>
      right
      have hpkv : (fun kv : String × Nat => containsSub p kv.1) kv = true :=
        @List.find?_some _ (fun kv => containsSub p kv.1) kv fallback_durations hfind
      refine ⟨kv, List.mem_of_find?_eq_some hfind, ?_, ?_⟩
      · simpa using hpkv
      · unfold fallbackDuration
        rw [hfind]

/-- Claim C9, witness: with no model loaded, a request for "Root Canal"
returns the degraded response with the table duration. -/
theorem C9_degraded_fallback_witness :
    ((⟨false, []⟩ : ServiceState).modelLoaded = false ∧
     (([("procedure_type", "Root Canal"), ("patient_type", "Adult")] :
        List (String × String)).lookup "procedure_type" = some "Root Canal")) ∧
    (predict ⟨false, []⟩ ⟨fun _ => 0, fun _ => 0, fun _ => none⟩
        [("procedure_type", "Root Canal"), ("patient_type", "Adult")]).2 =
      ⟨200, none, some ((fallbackDuration (pyLower "Root Canal") : Nat) : ℚ),
       some "low", some false, some true, none⟩ :=
  ⟨⟨rfl, by decide⟩,
   (C9_degraded_fallback ⟨false, []⟩ ⟨fun _ => 0, fun _ => 0, fun _ => none⟩
     [("procedure_type", "Root Canal"), ("patient_type", "Adult")] "Root Canal" "Adult"
     rfl (by decide) (by decide)).1⟩

/-- Claim C10: a request body lacking `procedure_type` or `patient_type`
gets a 400 response whose body carries only the error message — no
`predicted_duration_minutes`, `confidence`, `model_used`, `fallback` or
`features` fields — and the handler returns the service state (loaded
model and encoders) unchanged on every request. -/
theorem C10_missing_required_field (st : ServiceState) (env : PredictEnv)
    (data : List (String × String)) :
    (data.lookup "procedure_type" = none →
      predict st env data =
        (st, ⟨400, some "Missing required field: procedure_type",
              none, none, none, none, none⟩)) ∧
    ((data.lookup "procedure_type").isSome → data.lookup "patient_type" = none →
      predict st env data =
        (st, ⟨400, some "Missing required field: patient_type",
              none, none, none, none, none⟩)) ∧
    (predict st env data).1 = st := by
  have h1 : data.lookup "procedure_type" = none →
      predict st env data =
        (st, ⟨400, some "Missing required field: procedure_type",
              none, none, none, none, none⟩) := by
    intro hp
    unfold predict
    rw [hp]
    rfl
  have h2 : (data.lookup "procedure_type").isSome →
      data.lookup "patient_type" = none →
      predict st env data =
        (st, ⟨400, some "Missing required field: patient_type",
              none, none, none, none, none⟩) := by
    intro hp hq
    obtain ⟨pv, hpv⟩ := Option.isSome_iff_exists.mp hp
    unfold predict
    rw [hpv, hq]
    rfl
  refine ⟨h1, h2, ?_⟩
  cases hp : data.lookup "procedure_type" with
  | none => rw [h1 hp]
  | some pv =>
    cases hq : data.lookup "patient_type" with
    | none => rw [h2 (by rw [hp]; rfl) hq]
    | some qv =>
      cases hm : st.modelLoaded with
      | true => rw [predict_loaded st env data pv qv hm hp hq]
      | false => rw [predict_degraded st env data pv qv hm hp hq]

/-- Claim C10, witness: a body missing `procedure_type` yields the
error-only 400 response and an unchanged state. -/
theorem C10_missing_required_field_witness :
    (([("patient_type", "Adult")] : List (String × String)).lookup
        "procedure_type" = none) ∧
    predict ⟨true, [("patient_type", ["Adult"])]⟩ ⟨fun _ => 0, fun _ => 0, fun _ => none⟩
        [("patient_type", "Adult")] =
      (⟨true, [("patient_type", ["Adult"])]⟩,
       ⟨400, some "Missing required field: procedure_type",
        none, none, none, none, none⟩) :=
  ⟨by decide,
   (C10_missing_required_field ⟨true, [("patient_type", ["Adult"])]⟩
     ⟨fun _ => 0, fun _ => 0, fun _ => none⟩ [("patient_type", "Adult")]).1 (by decide)⟩

end DentalML
